import Mathlib

/-
Verification of the planning core of the noir-ai repository.

The definitions below are a shallow embedding of:
  - app/core/models/enums.py      (TargetType, CostTier)
  - app/core/models/target.py     (Target and its pydantic field validation)
  - app/core/models/step.py       (Step)
  - app/core/models/evidence.py   (Evidence)
  - app/core/planning/base.py     (PlannerError)
  - app/core/planning/mock_planner.py (MockPlanner.create_plan / adapt_plan)

Python dictionaries with JSON-like values (Step.params, the entries of
Evidence.risk_indicators, metadata bags) are embedded as association lists
over a small value type `PValue`; only keys the code itself reads or writes
matter here.  The float literal 0.7 is carried as the inert decimal
`PValue.dec 7 10` (it is only ever stored, never computed with).  The
`context` argument of `create_plan` is a free-form dict of which the code
reads exactly the keys "demo" and "include_news" with `.get(key, False)`;
it is embedded as an optional record of those two booleans, with
`Option.getD` playing the role of `context = context or {}`.
Python exceptions become an `Except` result: `PlanError.plannerError`
embeds `PlannerError`, and `PlanError.stopIteration` embeds the bare
`StopIteration` that `next(...)` (without default) raises when no element
matches.
-/

namespace Noir

/-- TargetType from app/core/models/enums.py. -/
inductive TargetType where
  | ip
  | domain
  | url
  | company
deriving DecidableEq, Repr

/-- The string value of a TargetType member (str-valued enum). -/
def TargetType.value : TargetType → String
  | .ip => "ip"
  | .domain => "domain"
  | .url => "url"
  | .company => "company"

/-- Parse a string into a TargetType member, as pydantic enum validation does. -/
def TargetType.fromString (s : String) : Option TargetType :=
  if s = "ip" then some .ip
  else if s = "domain" then some .domain
  else if s = "url" then some .url
  else if s = "company" then some .company
  else none

/-- CostTier from app/core/models/enums.py. -/
inductive CostTier where
  | free
  | basic
  | premium
deriving DecidableEq, Repr

/-- A JSON-like value stored in a params / indicator / metadata dict.
`dec num den` carries a decimal literal such as 0.7 (= dec 7 10) inertly. -/
inductive PValue where
  | s (v : String)
  | n (v : Nat)
  | dec (num den : Nat)
  | list (vs : List String)
deriving DecidableEq, Repr

/-- A Python dict with string keys, embedded as an association list. -/
abbrev Params := List (String × PValue)

/-- Python dict .get(key): first binding wins, none when absent. -/
def Params.get (ps : Params) (k : String) : Option PValue :=
  match ps with
  | [] => none
  | (k2, v) :: rest => if k2 = k then some v else Params.get rest k

/-- Step from app/core/models/step.py. -/
structure Step where
  id : String
  primitive : String
  params : Params := []
  parallel : Bool := false
  label : Option String := none
  timeout_s : Option Nat := none
  cost_tier : CostTier := .free
deriving DecidableEq, Repr

/-- Target from app/core/models/target.py (created_at embedded as a Nat tick;
it is never read by the planner). -/
structure Target where
  value : String
  type : TargetType
  normalized_value : String
  created_at : Nat := 0
  metadata : Params := []
deriving DecidableEq, Repr

/-- Pydantic construction of a Target from raw field inputs
(target.py lines 25-41): `value` and `normalized_value` are plain `str`
fields declared with only a description — pydantic accepts every string for
them, empty or not — and `type` must be a member of the TargetType enum. -/
def Target.construct (value : String) (ty : String) (normalized_value : String) :
    Except String Target :=
  match TargetType.fromString ty with
  | none => .error ("Input should be one of: ip, domain, url, company; got " ++ ty)
  | some t => .ok { value := value, type := t, normalized_value := normalized_value }

/-- A risk indicator entry: a dict with at least "severity" when flagged. -/
abbrev Indicator := Params

/-- Evidence from app/core/models/evidence.py (timestamp embedded as a Nat
tick; confidence as an exact rational in place of the float). -/
structure Evidence where
  source : String
  step_id : Option String := none
  target_value : String
  data : Params := []
  risk_indicators : List Indicator := []
  confidence : ℚ := 1
  timestamp : Nat := 0
  cost_tier : CostTier := .free
  raw_response : String := ""
deriving DecidableEq, Repr

/-- The errors that can escape the planner:
`plannerError` embeds PlannerError from app/core/planning/base.py;
`stopIteration` embeds the bare StopIteration raised by `next(...)` in
adapt_plan when no step has primitive "risk_score". -/
inductive PlanError where
  | plannerError (msg : String)
  | stopIteration
deriving DecidableEq, Repr

/-- The recognized keys of the create_plan context dict, with the defaults
the code supplies via `context.get(key, False)`. -/
structure Ctx where
  demo : Bool := false
  include_news : Bool := false
deriving DecidableEq, Repr

/-- Python `f"{n:03d}"`: zero-pad a Nat to (at least) three digits. -/
def pad3 (n : Nat) : String :=
  if n < 10 then "00" ++ toString n
  else if n < 100 then "0" ++ toString n
  else toString n

/-- MockPlanner._supported_types, in the literal order {DOMAIN, URL, IP}. -/
def supported_types : List TargetType := [.domain, .url, .ip]

/-- The PlannerError message of create_plan for an unsupported target type. -/
def unsupportedMsg (t : TargetType) : String :=
  "MockPlanner doesn\x27t support target type: " ++ t.value ++
  ". Supported types: " ++ String.intercalate ", " (supported_types.map TargetType.value)

/-- The whois step create_plan appends for domain/url targets, at step
counter `c` (mock_planner.py lines 38-50). -/
def whoisStep (ty nv : String) (c : Nat) : Step :=
  { id := "step_" ++ ty ++ "_" ++ pad3 c
    primitive := "whois"
    params := [("domain", PValue.s nv)]
    label := some "WHOIS Domain Lookup"
    cost_tier := CostTier.free
    timeout_s := some 30
    parallel := false }

/-- The web_search step create_plan always appends, at step counter `c`
(mock_planner.py lines 52-67). -/
def webSearchStep (ty nv : String) (demo_mode : Bool) (c : Nat) : Step :=
  { id := "step_" ++ ty ++ "_" ++ pad3 c
    primitive := "web_search"
    params := [("query", PValue.s nv),
               ("max_results", PValue.n (if demo_mode then 5 else 3))]
    label := some "Web Search"
    cost_tier := CostTier.free
    timeout_s := some 15
    parallel := true }

/-- The reputation step create_plan always appends, at step counter `c`
(mock_planner.py lines 69-84). -/
def reputationStep (ty nv : String) (c : Nat) : Step :=
  { id := "step_" ++ ty ++ "_" ++ pad3 c
    primitive := "reputation"
    params := [("target", PValue.s nv),
               ("engines", PValue.list ["virustotal", "safebrowsing"])]
    label := some "Reputation Check"
    cost_tier := CostTier.free
    timeout_s := some 20
    parallel := true }

/-- The news_search step create_plan appends when demo mode or include_news
is set, at step counter `c` (mock_planner.py lines 86-102). -/
def newsSearchStep (ty nv : String) (c : Nat) : Step :=
  { id := "step_" ++ ty ++ "_" ++ pad3 c
    primitive := "news_search"
    params := [("query", PValue.s (nv ++ " scam OR complaints OR fraud")),
               ("days_back", PValue.n 30)]
    label := some "News & Complaint Search"
    cost_tier := CostTier.basic
    timeout_s := some 25
    parallel := false }

/-- The terminal risk_score step create_plan always appends last, at step
counter `c` (mock_planner.py lines 104-118). -/
def riskScoreStep (ty : String) (c : Nat) : Step :=
  { id := "step_" ++ ty ++ "_" ++ pad3 c
    primitive := "risk_score"
    params := [("aggregation_method", PValue.s "weighted_average"),
               ("confidence_threshold", PValue.dec 7 10)]
    label := some "Risk Assessment"
    cost_tier := CostTier.free
    timeout_s := some 5
    parallel := false }

/-- MockPlanner.create_plan (mock_planner.py lines 19-120).  The Python code
threads a step_counter through one linear flow: counter 1 at the whois block
(emitted and incremented only for domain/url), then web_search, reputation,
the optional news_search, and the terminal risk_score at the successive
counters.  Here the two data-independent branch decisions (whois block
present; news block present) are hoisted outward, so each of the four plan
shapes lists its steps with the exact counter values the Python counter
takes on that path. -/
def create_plan (target : Target) (context : Option Ctx) : Except PlanError (List Step) :=
  if target.type ∈ supported_types then
    let ctx := context.getD {}
    let demo_mode := ctx.demo
    let ty := target.type.value
    let nv := target.normalized_value
    if target.type = TargetType.domain ∨ target.type = TargetType.url then
      if demo_mode || ctx.include_news then
        .ok [whoisStep ty nv 1, webSearchStep ty nv demo_mode 2, reputationStep ty nv 3,
             newsSearchStep ty nv 4, riskScoreStep ty 5]
      else
        .ok [whoisStep ty nv 1, webSearchStep ty nv demo_mode 2, reputationStep ty nv 3,
             riskScoreStep ty 4]
    else
      if demo_mode || ctx.include_news then
        .ok [webSearchStep ty nv demo_mode 1, reputationStep ty nv 2, newsSearchStep ty nv 3,
             riskScoreStep ty 4]
      else
        .ok [webSearchStep ty nv demo_mode 1, reputationStep ty nv 2, riskScoreStep ty 3]
  else
    .error (.plannerError (unsupportedMsg target.type))

/-- True when one indicator dict has severity "high"
(`indicator.get("severity") == "high"`). -/
def indicatorHigh (ind : Indicator) : Bool :=
  Params.get ind "severity" = some (PValue.s "high")

/-- True when some evidence carries a high-severity risk indicator. -/
def highRiskFound (evidence : List Evidence) : Bool :=
  evidence.any fun ev => ev.risk_indicators.any indicatorHigh

/-- The adaptive news_search step adapt_plan builds from the current plan
length and the first evidence item. -/
def adaptiveNewsStep (current_plan : List Step) (ev0 : Evidence) : Step :=
  { id := "step_adaptive_" ++ pad3 current_plan.length
    primitive := "news_search"
    params := [("query", PValue.s (ev0.target_value ++ " scam OR complaints OR fraud")),
               ("days_back", PValue.n 90)]
    label := some "Deep News Search (High Risk Detected)"
    cost_tier := CostTier.basic
    timeout_s := some 30
    parallel := false }

/-- MockPlanner.adapt_plan (mock_planner.py lines 122-174).  `findIdx?`
plays the role of `next(i for i, step in ... if step.primitive ==
"risk_score")`; when no step matches, that Python expression raises a bare
StopIteration, embedded here as `.error .stopIteration`.  Python
`list.insert(i, x)` on a valid index is `take i ++ [x] ++ drop i`. -/
def adapt_plan (current_plan : List Step) (evidence : List Evidence) :
    Except PlanError (List Step) :=
  match evidence with
  | [] => .ok current_plan
  | ev0 :: rest =>
    if highRiskFound (ev0 :: rest) then
      let has_news_search := current_plan.any fun step => step.primitive = "news_search"
      if has_news_search then
        .ok current_plan
      else
        match current_plan.findIdx? (fun step => step.primitive = "risk_score") with
        | none => .error .stopIteration
        | some risk_score_idx =>
          .ok (current_plan.take risk_score_idx ++
                adaptiveNewsStep current_plan ev0 :: current_plan.drop risk_score_idx)
    else
      .ok current_plan

/-- True when the first character list starts the second one. -/
def headMatches : List Char → List Char → Bool
  | [], _ => true
  | _ :: _, [] => false
  | p :: ps, c :: cs => p = c && headMatches ps cs

/-- True when the first list occurs contiguously inside the second. -/
def listHasSubstr : List Char → List Char → Bool
  | pat, [] => headMatches pat []
  | pat, c :: cs => headMatches pat (c :: cs) || listHasSubstr pat cs

/-- True when `pat` occurs as a contiguous substring of `s`. -/
def strContains (s pat : String) : Bool := listHasSubstr pat.data s.data

/-- A minimal plan holding nothing but the terminal risk_score step. -/
def riskOnlyPlan : List Step := [{ id := "step_ip_001", primitive := "risk_score" }]

/-- One piece of evidence carrying one high-severity risk indicator. -/
def highEv0 : Evidence :=
  { source := "whois", target_value := "test.com",
    risk_indicators := [[("severity", PValue.s "high")]] }

/-- A single-element evidence list carrying one high-severity indicator. -/
def highRiskEvidence : List Evidence := [highEv0]

/-- The result of adapting riskOnlyPlan under highRiskEvidence: the adaptive
news step is inserted in front of the risk_score step. -/
def riskOnlyPlanAdapted : List Step :=
  [{ id := "step_adaptive_001", primitive := "news_search",
     params := [("query", PValue.s "test.com scam OR complaints OR fraud"),
                ("days_back", PValue.n 90)],
     label := some "Deep News Search (High Risk Detected)",
     cost_tier := .basic, timeout_s := some 30, parallel := false },
   { id := "step_ip_001", primitive := "risk_score" }]

/-- Unfolding equation for adapt_plan on non-empty evidence. -/
theorem adapt_plan_cons (p : List Step) (ev0 : Evidence) (rest : List Evidence) :
    adapt_plan p (ev0 :: rest) =
      if highRiskFound (ev0 :: rest) then
        if p.any (fun step => step.primitive = "news_search") then .ok p
        else
          match p.findIdx? (fun step => step.primitive = "risk_score") with
          | none => .error .stopIteration
          | some risk_score_idx =>
            .ok (p.take risk_score_idx ++ adaptiveNewsStep p ev0 :: p.drop risk_score_idx)
      else .ok p := rfl

/-- The Bool scan of adapt_plan agrees with the spec-level description
of a high-severity indicator being present. -/
theorem highRiskFound_iff (e : List Evidence) :
    highRiskFound e = true ↔
      ∃ ev ∈ e, ∃ ind ∈ ev.risk_indicators,
        Params.get ind "severity" = some (PValue.s "high") := by
  simp [highRiskFound, indicatorHigh, List.any_eq_true]

/-- C8: for the target test.com of type domain with an empty context,
create_plan returns exactly the four steps step_domain_001 (whois),
step_domain_002 (web_search), step_domain_003 (reputation),
step_domain_004 (risk_score), in that order. -/
theorem c8_example_plan_test_dot_com :
    create_plan { value := "test.com", type := .domain, normalized_value := "test.com" }
        (some {}) =
      .ok [
        { id := "step_domain_001", primitive := "whois",
          params := [("domain", PValue.s "test.com")],
          label := some "WHOIS Domain Lookup", cost_tier := .free,
          timeout_s := some 30, parallel := false },
        { id := "step_domain_002", primitive := "web_search",
          params := [("query", PValue.s "test.com"), ("max_results", PValue.n 3)],
          label := some "Web Search", cost_tier := .free,
          timeout_s := some 15, parallel := true },
        { id := "step_domain_003", primitive := "reputation",
          params := [("target", PValue.s "test.com"),
                     ("engines", PValue.list ["virustotal", "safebrowsing"])],
          label := some "Reputation Check", cost_tier := .free,
          timeout_s := some 20, parallel := true },
        { id := "step_domain_004", primitive := "risk_score",
          params := [("aggregation_method", PValue.s "weighted_average"),
                     ("confidence_threshold", PValue.dec 7 10)],
          label := some "Risk Assessment", cost_tier := .free,
          timeout_s := some 5, parallel := false }] := rfl

/-- C3: on a target of type company, create_plan fails with a PlannerError
(never a plan, never a silent empty plan) whose message mentions "company"
and lists the supported types domain, url and ip. -/
theorem c3_company_raises_planner_error (t : Target) (ctx : Option Ctx)
    (h : t.type = TargetType.company) :
    ∃ msg, create_plan t ctx = .error (.plannerError msg) ∧
      strContains msg "company" = true ∧
      strContains msg "domain" = true ∧
      strContains msg "url" = true ∧
      strContains msg "ip" = true := by
  refine ⟨unsupportedMsg TargetType.company, ?_, by decide, by decide, by decide, by decide⟩
  simp [create_plan, h, supported_types]

/-- Witness for C3 at a concrete company target. -/
theorem c3_company_raises_planner_error_witness :
    (Target.mk "Acme Corporation" TargetType.company "acme corporation" 0 []).type =
        TargetType.company ∧
      ∃ msg,
        create_plan (Target.mk "Acme Corporation" TargetType.company "acme corporation" 0 [])
            none =
          .error (.plannerError msg) ∧
        strContains msg "company" = true ∧
        strContains msg "domain" = true ∧
        strContains msg "url" = true ∧
        strContains msg "ip" = true :=
  ⟨rfl, c3_company_raises_planner_error _ none rfl⟩

/-- C6 (failing input): adapt_plan on a plan that lacks a risk_score step,
with high-severity evidence and no news_search step present, hits
`next(...)` with no matching element: Python raises a bare StopIteration,
not a PlannerError, contradicting the claim that PlanningError is the only
error kind that escapes the planner. -/
theorem c6_missing_risk_score_raises_stop_iteration :
    adapt_plan
      [{ id := "step_domain_001", primitive := "whois",
         params := [("domain", PValue.s "test.com")],
         label := some "WHOIS Domain Lookup", cost_tier := .free,
         timeout_s := some 30, parallel := false }]
      [{ source := "whois", target_value := "test.com",
         risk_indicators := [[("severity", PValue.s "high")]] }] =
      .error PlanError.stopIteration := rfl

/-- C9 (counterexample): Target construction does not reject an empty
normalized_value; constructing with normalized_value = "" succeeds, so the
claim that it fails validation is false. -/
theorem c9_counterexample_empty_normalized_value_accepted :
    ¬ ∀ (v ty nv : String) (t : Target),
        Target.construct v ty nv = Except.ok t → t.normalized_value ≠ "" := by
  intro h
  exact h "test.com" "domain" ""
    { value := "test.com", type := TargetType.domain, normalized_value := "" } rfl rfl

/-- C9 (amended): Target construction validates only enum membership of the
type field; the string fields are unconstrained, so construction succeeds
for every value and every normalized_value — the empty string included —
and stores them verbatim. -/
theorem c9_construct_accepts_any_normalized_value (v ty nv : String) (tt : TargetType)
    (h : TargetType.fromString ty = some tt) :
    Target.construct v ty nv =
      Except.ok { value := v, type := tt, normalized_value := nv } := by
  simp [Target.construct, h]

/-- Witness for the amended C9 at the empty normalized_value. -/
theorem c9_construct_accepts_any_normalized_value_witness :
    TargetType.fromString "domain" = some TargetType.domain ∧
      Target.construct "test.com" "domain" "" =
        Except.ok { value := "test.com", type := TargetType.domain, normalized_value := "" } :=
  ⟨rfl, c9_construct_accepts_any_normalized_value "test.com" "domain" "" TargetType.domain rfl⟩

/-- C10: a missing context is treated as all-defaults; create_plan with
context omitted returns the same plan as with an empty context map. -/
theorem c10_none_context_equals_empty_context (t : Target)
    (_h : t.type ∈ supported_types) :
    create_plan t none = create_plan t (some {}) := rfl

/-- Witness for C10 at a concrete supported target. -/
theorem c10_none_context_equals_empty_context_witness :
    (Target.mk "test.com" TargetType.domain "test.com" 0 []).type ∈ supported_types ∧
      create_plan (Target.mk "test.com" TargetType.domain "test.com" 0 []) none =
        create_plan (Target.mk "test.com" TargetType.domain "test.com" 0 []) (some {}) :=
  ⟨by decide, c10_none_context_equals_empty_context _ (by decide)⟩

/-- C5: adapt_plan returns the input plan unchanged whenever no adaptation
condition holds: empty evidence, or no high-severity risk indicator in any
evidence, or a news_search step already present in the plan. -/
theorem c5_no_adaptation_returns_plan_unchanged (p : List Step) (e : List Evidence)
    (h : e = [] ∨
      (∀ ev ∈ e, ∀ ind ∈ ev.risk_indicators,
        Params.get ind "severity" ≠ some (PValue.s "high")) ∨
      (∃ st ∈ p, st.primitive = "news_search")) :
    adapt_plan p e = .ok p := by
  match e with
  | [] => rfl
  | ev0 :: rest =>
    rcases h with h | h | h
    · exact absurd h (by simp)
    · have hr : highRiskFound (ev0 :: rest) = false := by
        rw [Bool.eq_false_iff]
        intro hc
        obtain ⟨ev, hev, ind, hind, hsev⟩ := (highRiskFound_iff _).mp hc
        exact h ev hev ind hind hsev
      rw [adapt_plan_cons, hr]
      rfl
    · rw [adapt_plan_cons]
      have hn : (p.any fun step => step.primitive = "news_search") = true := by
        rcases h with ⟨st, hst, hprim⟩
        exact List.any_eq_true.mpr ⟨st, hst, by simp [hprim]⟩
      by_cases hr : highRiskFound (ev0 :: rest) = true
      · rw [hr, hn]
        rfl
      · rw [Bool.not_eq_true] at hr
        rw [hr]
        rfl

/-- Witness for C5 with empty evidence on the one-step risk_score plan. -/
theorem c5_no_adaptation_returns_plan_unchanged_witness :
    adapt_plan [{ id := "step_ip_001", primitive := "risk_score" }] [] =
      .ok [{ id := "step_ip_001", primitive := "risk_score" }] :=
  c5_no_adaptation_returns_plan_unchanged _ [] (.inl rfl)

/-- C4: adapt_plan is idempotent: whenever it returns a plan, running it
again on that result with the same evidence returns the same plan — in
particular a second news_search step is never added. -/
theorem c4_adapt_plan_idempotent (p : List Step) (e : List Evidence) (q : List Step)
    (h : adapt_plan p e = .ok q) : adapt_plan q e = .ok q := by
  match e with
  | [] =>
    simp only [adapt_plan, Except.ok.injEq] at h
    subst h
    rfl
  | ev0 :: rest =>
    rw [adapt_plan_cons] at h ⊢
    by_cases hr : highRiskFound (ev0 :: rest) = true
    · rw [hr] at h ⊢
      simp only [if_true] at h ⊢
      by_cases hn : (p.any fun step => step.primitive = "news_search") = true
      · rw [hn] at h
        simp only [if_true, Except.ok.injEq] at h
        subst h
        rw [hn]
        rfl
      · rw [Bool.not_eq_true] at hn
        rw [hn] at h
        simp only [Bool.false_eq_true, if_false] at h
        cases hf : p.findIdx? fun step => step.primitive = "risk_score" with
        | none => rw [hf] at h; exact absurd h (by simp)
        | some i =>
          rw [hf] at h
          simp only [Except.ok.injEq] at h
          subst h
          have hq : ((p.take i ++ adaptiveNewsStep p ev0 :: p.drop i).any
              fun step => step.primitive = "news_search") = true := by
            refine List.any_eq_true.mpr ⟨adaptiveNewsStep p ev0, ?_, by simp [adaptiveNewsStep]⟩
            exact List.mem_append_right _ (List.mem_cons_self _ _)
          rw [hq]
          rfl
    · rw [Bool.not_eq_true] at hr
      rw [hr] at h ⊢
      simp only [Bool.false_eq_true, if_false, Except.ok.injEq] at h
      subst h
      rfl

/-- C2: for every supported target type and every context, the returned
plan is non-empty, its last element has primitive risk_score, its step ids
are pairwise unique, and the ids follow the pattern
step_(type)_(NNN) with NNN 1-based, zero-padded to three digits and
strictly increasing (consecutively) along the plan. -/
theorem c2_create_plan_invariants (t : Target) (ctx : Option Ctx)
    (h : t.type ∈ supported_types) :
    ∃ plan, create_plan t ctx = Except.ok plan ∧
      plan ≠ [] ∧
      plan.getLast?.map Step.primitive = some "risk_score" ∧
      (plan.map Step.id).Nodup ∧
      plan.map Step.id =
        (List.range plan.length).map
          (fun i => "step_" ++ t.type.value ++ "_" ++ pad3 (i + 1)) := by
  obtain ⟨v, ty, nv, ca, md⟩ := t
  have hrw : create_plan ⟨v, ty, nv, ca, md⟩ ctx =
      create_plan ⟨v, ty, nv, ca, md⟩ (some (ctx.getD {})) := rfl
  rw [hrw]
  rcases hi : ctx.getD {} with ⟨demo, inc⟩
  cases ty
  case company => simp [supported_types] at h
  all_goals cases demo <;> cases inc <;>
    exact ⟨_, rfl, by simp, by rfl, of_decide_eq_true rfl, by rfl⟩

/-- Witness for C2 at an ip target with no context. -/
theorem c2_create_plan_invariants_witness :
    (Target.mk "1.2.3.4" TargetType.ip "1.2.3.4" 0 []).type ∈ supported_types ∧
      ∃ plan,
        create_plan (Target.mk "1.2.3.4" TargetType.ip "1.2.3.4" 0 []) none =
          Except.ok plan ∧
        plan ≠ [] ∧
        plan.getLast?.map Step.primitive = some "risk_score" ∧
        (plan.map Step.id).Nodup ∧
        plan.map Step.id =
          (List.range plan.length).map
            (fun i =>
              "step_" ++ (Target.mk "1.2.3.4" TargetType.ip "1.2.3.4" 0 []).type.value ++
                "_" ++ pad3 (i + 1)) :=
  ⟨by decide, c2_create_plan_invariants _ none (by decide)⟩

/-- C7: for every supported target, the plan contains a news_search step iff
the context declares demo or include_news, and any news_search step in the
plan has basic tier, 25s timeout, not parallel, days_back 30 and the query
combining the normalized value with the fraud/scam/complaint suffix. -/
theorem c7_news_step_iff_demo_or_include_news (t : Target) (ctx : Option Ctx)
    (h : t.type ∈ supported_types) :
    ∃ plan, create_plan t ctx = Except.ok plan ∧
      ((∃ st ∈ plan, st.primitive = "news_search") ↔
        ((ctx.getD {}).demo = true ∨ (ctx.getD {}).include_news = true)) ∧
      (∀ st ∈ plan, st.primitive = "news_search" →
        st.cost_tier = CostTier.basic ∧ st.timeout_s = some 25 ∧ st.parallel = false ∧
        Params.get st.params "days_back" = some (PValue.n 30) ∧
        Params.get st.params "query" =
          some (PValue.s (t.normalized_value ++ " scam OR complaints OR fraud"))) := by
  obtain ⟨v, ty, nv, ca, md⟩ := t
  have hrw : create_plan ⟨v, ty, nv, ca, md⟩ ctx =
      create_plan ⟨v, ty, nv, ca, md⟩ (some (ctx.getD {})) := rfl
  rw [hrw]
  rcases hi : ctx.getD {} with ⟨demo, inc⟩
  cases ty
  case company => simp [supported_types] at h
  all_goals cases demo <;> cases inc <;>
    refine ⟨_, rfl, ?_, ?_⟩ <;>
    first
    | (intro st hst hprim
       fin_cases hst <;>
         first
         | exact absurd hprim (of_decide_eq_true rfl)
         | exact ⟨rfl, rfl, rfl, rfl, rfl⟩)
    | simp [whoisStep, webSearchStep, reputationStep, newsSearchStep, riskScoreStep]

/-- Witness for C7 at a domain target in demo mode. -/
theorem c7_news_step_iff_demo_or_include_news_witness :
    (Target.mk "test.com" TargetType.domain "test.com" 0 []).type ∈ supported_types ∧
      ∃ plan,
        create_plan (Target.mk "test.com" TargetType.domain "test.com" 0 [])
            (some { demo := true, include_news := false }) =
          Except.ok plan ∧
        ((∃ st ∈ plan, st.primitive = "news_search") ↔
          (((some (Ctx.mk true false)).getD {}).demo = true ∨
            ((some (Ctx.mk true false)).getD {}).include_news = true)) ∧
        (∀ st ∈ plan, st.primitive = "news_search" →
          st.cost_tier = CostTier.basic ∧ st.timeout_s = some 25 ∧ st.parallel = false ∧
          Params.get st.params "days_back" = some (PValue.n 30) ∧
          Params.get st.params "query" =
            some (PValue.s
              ((Target.mk "test.com" TargetType.domain "test.com" 0 []).normalized_value ++
                " scam OR complaints OR fraud"))) :=
  ⟨by decide,
    c7_news_step_iff_demo_or_include_news _ (some { demo := true, include_news := false })
      (by decide)⟩

/-- C1: on a plan ending in the terminal risk_score step with no news_search
step, and evidence holding a high-severity risk indicator, adapt_plan
returns a strictly longer plan obtained by inserting exactly one new
news_search step immediately before the risk_score step, with id
step_adaptive_(plan length zero-padded to 3), basic tier, 30s timeout, not
parallel, days_back 90 and a query built from the target_value of the
first evidence item plus the fraud/scam/complaint suffix; the insertion-point
decomposition shows every pre-existing step preserved in order. -/
theorem c1_adapt_plan_inserts_news_before_risk_score
    (plan : List Step) (ev0 : Evidence) (rest : List Evidence)
    (hne : plan ≠ [])
    (hlast : (plan.getLast hne).primitive = "risk_score")
    (hnonews : ∀ st ∈ plan, st.primitive ≠ "news_search")
    (hhigh : ∃ ev ∈ ev0 :: rest, ∃ ind ∈ ev.risk_indicators,
        Params.get ind "severity" = some (PValue.s "high")) :
    ∃ i q, adapt_plan plan (ev0 :: rest) = Except.ok q ∧
      i ≤ plan.length ∧
      q = plan.take i ++
        { id := "step_adaptive_" ++ pad3 plan.length,
          primitive := "news_search",
          params := [("query", PValue.s (ev0.target_value ++ " scam OR complaints OR fraud")),
                     ("days_back", PValue.n 90)],
          label := some "Deep News Search (High Risk Detected)",
          cost_tier := CostTier.basic,
          timeout_s := some 30,
          parallel := false } :: plan.drop i ∧
      plan.length < q.length ∧
      (q.countP fun st => st.primitive == "news_search") = 1 ∧
      (q[i + 1]?).map Step.primitive = some "risk_score" := by
  have hr : highRiskFound (ev0 :: rest) = true := (highRiskFound_iff _).mpr hhigh
  have hn : (plan.any fun step => step.primitive = "news_search") = false := by
    rw [List.any_eq_false]
    intro st hst
    simpa using hnonews st hst
  cases hf : plan.findIdx? (fun step => step.primitive = "risk_score") with
  | none =>
    exfalso
    have hall := List.findIdx?_eq_none_iff.mp hf (plan.getLast hne) (List.getLast_mem hne)
    simp [hlast] at hall
  | some i =>
    obtain ⟨hilt, hpi, -⟩ := List.findIdx?_eq_some_iff_getElem.mp hf
    have heq : adapt_plan plan (ev0 :: rest) =
        .ok (plan.take i ++ adaptiveNewsStep plan ev0 :: plan.drop i) := by
      rw [adapt_plan_cons, hr, hn, hf]
      rfl
    have hlen : (plan.take i).length = i := by
      rw [List.length_take]
      exact min_eq_left (le_of_lt hilt)
    refine ⟨i, plan.take i ++ adaptiveNewsStep plan ev0 :: plan.drop i, heq,
      le_of_lt hilt, rfl, ?_, ?_, ?_⟩
    · simp only [List.length_append, List.length_cons, hlen, List.length_drop]
      omega
    · rw [List.countP_append, List.countP_cons]
      have ht : ((plan.take i).countP fun st => st.primitive == "news_search") = 0 :=
        List.countP_eq_zero.mpr fun a ha => by simpa using hnonews a (List.take_subset _ _ ha)
      have hd : ((plan.drop i).countP fun st => st.primitive == "news_search") = 0 :=
        List.countP_eq_zero.mpr fun a ha => by simpa using hnonews a (List.drop_subset _ _ ha)
      rw [ht, hd]
      simp [adaptiveNewsStep]
    · have hb : (plan.take i).length ≤ i + 1 := by rw [hlen]; omega
      have hpi2 : plan[i].primitive = "risk_score" := by simpa using hpi
      rw [List.getElem?_append_right hb, hlen]
      simp [List.getElem?_drop, List.getElem?_eq_getElem hilt, hpi2]

/-- Witness for C1 on the one-step risk_score plan with high-risk evidence. -/
theorem c1_adapt_plan_inserts_news_before_risk_score_witness :
    ∃ i q, adapt_plan riskOnlyPlan (highEv0 :: []) = Except.ok q ∧
      i ≤ riskOnlyPlan.length ∧
      q = riskOnlyPlan.take i ++
        { id := "step_adaptive_" ++ pad3 riskOnlyPlan.length,
          primitive := "news_search",
          params := [("query",
                      PValue.s (highEv0.target_value ++ " scam OR complaints OR fraud")),
                     ("days_back", PValue.n 90)],
          label := some "Deep News Search (High Risk Detected)",
          cost_tier := CostTier.basic,
          timeout_s := some 30,
          parallel := false } :: riskOnlyPlan.drop i ∧
      riskOnlyPlan.length < q.length ∧
      (q.countP fun st => st.primitive == "news_search") = 1 ∧
      (q[i + 1]?).map Step.primitive = some "risk_score" :=
  c1_adapt_plan_inserts_news_before_risk_score riskOnlyPlan highEv0 []
    (by decide) rfl (by decide) (by decide)

/-- Witness for C4: a first adaptation that inserts the news step, then the
second call returning it unchanged. -/
theorem c4_adapt_plan_idempotent_witness :
    adapt_plan riskOnlyPlan highRiskEvidence = .ok riskOnlyPlanAdapted ∧
      adapt_plan riskOnlyPlanAdapted highRiskEvidence = .ok riskOnlyPlanAdapted :=
  ⟨rfl, c4_adapt_plan_idempotent riskOnlyPlan highRiskEvidence riskOnlyPlanAdapted rfl⟩

end Noir
